import Mathlib

/-!
Verification of the `Core::ArmNce` native-code-execution layer
(`src/core/arm/nce/arm_nce.cpp`) against its specification.

The machine state touched by the functions is embedded shallowly:
64-bit registers become `Nat` (with explicit `% 2^64` where the source
performs overflowing arithmetic), register files become functions from
`Fin n`, the host signal frame (`mcontext`, accessed through the
`CTX_*` macros) becomes the `HostFrame` structure, and atomic
read-modify-write operations on `esr_el1` become pure updates, which is
faithful for the single-thread executions the claims quantify over.
-/

/-- Host callee-saved state stashed in the guest context
(`GuestContext::host_ctx`): callee-saved GPRs x19..x30, callee-saved
vector registers q8..q15, and the host stack pointer.  Modelled from the
spec: the `HostContext` struct lives in the `arm_nce.h` header, which is
not part of the provided sources; field names and extents follow the
accesses in `arm_nce.cpp` (12 saved GPRs with index 11 = x30, 8 saved
vector registers, one stack pointer). -/
structure HostContext where
  host_saved_regs : Fin 12 → Nat
  host_saved_vregs : Fin 8 → Nat
  host_sp : Nat
deriving DecidableEq

/-- The guest-visible machine state owned by one execution core
(`GuestContext`).  Modelled from the spec: the struct itself is declared
in the `arm_nce.h` header, which is not part of the provided sources;
the fields are exactly those read and written by `arm_nce.cpp`
(31 general-purpose registers, 32 vector registers, pc, sp, pstate,
fpcr, fpsr, the two thread-local registers, the atomic halt-reason
accumulator `esr_el1`, the svc scratch field, and the host-save
sub-record).  The non-owning back-references `parent` and `system` are
pointers used only for lookup and are not part of the register state. -/
structure GuestContext where
  cpu_registers : Fin 31 → Nat
  vector_registers : Fin 32 → Nat
  sp : Nat
  pc : Nat
  pstate : Nat
  fpcr : Nat
  fpsr : Nat
  tpidr_el0 : Nat
  tpidrro_el0 : Nat
  esr_el1 : Nat
  svc : Nat
  host_ctx : HostContext

/-- The host signal frame (the `mcontext` record reached through
`CTX_DECLARE(raw_context)`): GPRs x0..x30 (`CTX_X`), vector registers
q0..q31 (`CTX_Q`), `CTX_SP`, `CTX_PC`, `CTX_PSTATE`, `CTX_FPCR`,
`CTX_FPSR`. -/
structure HostFrame where
  x : Fin 31 → Nat
  q : Fin 32 → Nat
  sp : Nat
  pc : Nat
  pstate : Nat
  fpcr : Nat
  fpsr : Nat

/-- Per-guest-thread synchronization block
(`Kernel::KThread::NativeExecutionParameters`).  Modelled from the spec:
the struct is declared in kernel headers outside the provided sources;
fields follow the accesses in `arm_nce.cpp`.  The `native_context`
pointer is modelled as a flag (`true` iff a context is installed). -/
structure NativeExecutionParameters where
  native_context : Bool
  tpidr_el0 : Nat
  tpidrro_el0 : Nat
  is_running : Bool
  lock : Nat
  magic : Nat
deriving DecidableEq

/-- Modelled from the spec: the spinlock constants from the assembly
definitions header (not in the provided sources).  Only their
distinctness matters to the claims. -/
def SpinLockUnlocked : Nat := 0

/-- Modelled from the spec: the locked spinlock state. -/
def SpinLockLocked : Nat := 1

/-- Modelled from the spec: `HaltReason` is a bitmask enum declared
outside the provided sources; `StepThread` is one of its distinct
single-bit values. -/
def HaltReasonStepThread : Nat := 1

/-- Modelled from the spec: the `BreakLoop` halt-reason bit (bit 2). -/
def HaltReasonBreakLoop : Nat := 4

/-- Modelled from the spec: the `PrefetchAbort` halt-reason bit (bit 5). -/
def HaltReasonPrefetchAbort : Nat := 32

/-- `ArmNce::RestoreGuestContext(raw_context)`: stashes the host
callee-saved vector registers q8..q15 and the host stack pointer into
`host_ctx`, then writes the guest state into the frame
(`CTX_PC = guest_ctx->sp; CTX_SP = guest_ctx->pc;` — exactly as in the
source — then pstate, fpcr, fpsr, and `memcpy`s of x0..x30 and
q0..q31).  Returns the updated guest context (its `host_ctx` changed)
and the rewritten frame.  The thread-local-pointer return value and the
`tpidr->native_context` lookup are pointer plumbing outside the
register state. -/
def RestoreGuestContext (guest_ctx : GuestContext) (frame : HostFrame) :
    GuestContext × HostFrame :=
  let guest1 : GuestContext :=
    { guest_ctx with
      host_ctx :=
        { guest_ctx.host_ctx with
          host_saved_vregs := fun i => frame.q ⟨8 + i.val, by have := i.isLt; omega⟩
          host_sp := frame.sp } }
  let frame1 : HostFrame :=
    { frame with
      pc := guest_ctx.sp
      sp := guest_ctx.pc
      pstate := guest_ctx.pstate
      fpcr := guest_ctx.fpcr
      fpsr := guest_ctx.fpsr
      x := guest_ctx.cpu_registers
      q := guest_ctx.vector_registers }
  (guest1, frame1)

/-- `ArmNce::SaveGuestContext(guest_ctx, raw_context)`: copies x0..x30,
q0..q31, fpsr, fpcr, pc, sp and pstate (truncated to 32 bits) out of the
frame into the guest context, then rewrites the frame for the return to
host code: `CTX_SP` from `host_ctx.host_sp`, x19..x30 from
`host_ctx.host_saved_regs`, q8..q15 from `host_ctx.host_saved_vregs`,
`CTX_PC` from `host_saved_regs[11]` (the saved x30), and finally
`CTX_X(0) = esr_el1.exchange(0)`. -/
def SaveGuestContext (guest_ctx : GuestContext) (frame : HostFrame) :
    GuestContext × HostFrame :=
  let guest1 : GuestContext :=
    { guest_ctx with
      cpu_registers := frame.x
      vector_registers := frame.q
      fpsr := frame.fpsr
      fpcr := frame.fpcr
      pc := frame.pc
      sp := frame.sp
      pstate := frame.pstate % 2 ^ 32
      esr_el1 := 0 }
  let frame1 : HostFrame :=
    { frame with
      sp := guest_ctx.host_ctx.host_sp
      x := fun i =>
        if i.val = 0 then guest_ctx.esr_el1
        else if h : 19 ≤ i.val then
          guest_ctx.host_ctx.host_saved_regs ⟨i.val - 19, by have := i.isLt; omega⟩
        else frame.x i
      q := fun i =>
        if h : 8 ≤ i.val ∧ i.val < 16 then
          guest_ctx.host_ctx.host_saved_vregs ⟨i.val - 8, by omega⟩
        else frame.q i
      pc := guest_ctx.host_ctx.host_saved_regs 11 }
  (guest1, frame1)

/-- Concrete guest context of the spec scenario: pc=0x1000, sp=0x2000,
all general-purpose registers zero. -/
def scenarioGuestCtx : GuestContext :=
  { cpu_registers := fun _ => 0
    vector_registers := fun _ => 0
    sp := 0x2000
    pc := 0x1000
    pstate := 0
    fpcr := 0
    fpsr := 0
    tpidr_el0 := 0
    tpidrro_el0 := 0
    esr_el1 := 0
    svc := 0
    host_ctx := { host_saved_regs := fun _ => 0, host_saved_vregs := fun _ => 0, host_sp := 0 } }

/-- A concrete host frame with distinguishable register contents. -/
def scenarioFrame : HostFrame :=
  { x := fun i => 100 + i.val
    q := fun i => 200 + i.val
    sp := 0xAAAA
    pc := 0xBBBB
    pstate := 5
    fpcr := 6
    fpsr := 7 }

/-- `ArmNce::HandleFailedGuestFault(guest_ctx, raw_info, raw_context)`.
`fault_addr` is `info->si_addr`; `thread_params` is the owning thread's
`NativeExecutionParameters` block reached through
`guest_ctx->parent->m_running_thread`.  Returns the updated guest
context, frame and thread parameters together with the handler's
boolean result (`true` = resume guest). -/
def HandleFailedGuestFault (guest_ctx : GuestContext) (fault_addr : Nat)
    (frame : HostFrame) (thread_params : NativeExecutionParameters) :
    GuestContext × HostFrame × NativeExecutionParameters × Bool :=
  if frame.pc = fault_addr then
    let guest1 : GuestContext :=
      { guest_ctx with esr_el1 := guest_ctx.esr_el1 ||| HaltReasonPrefetchAbort }
    let params1 : NativeExecutionParameters := { thread_params with lock := SpinLockLocked }
    let r := SaveGuestContext guest1 frame
    (r.1, r.2, params1, false)
  else
    (guest_ctx, { frame with pc := (frame.pc + 4) % 2 ^ 64 }, thread_params, true)

/-- The per-core driver state touched by `RunThread` and
`SignalInterrupt`: the core's `m_guest_ctx`, the `m_running_thread`
back-reference (modelled as a flag), and the target thread's
`NativeExecutionParameters` block. -/
structure ArmNceState where
  m_guest_ctx : GuestContext
  m_running_thread : Bool
  thread_params : NativeExecutionParameters

/-- Modelled from the spec: `LockThreadParameters` (assembly helper, not
in the provided sources) spins until it acquires the lock word; the
state after it returns has the lock held, everything else untouched. -/
def LockThreadParameters (params : NativeExecutionParameters) : NativeExecutionParameters :=
  { params with lock := SpinLockLocked }

/-- Modelled from the spec: `UnlockThreadParameters` (assembly helper,
not in the provided sources) releases the lock word. -/
def UnlockThreadParameters (params : NativeExecutionParameters) : NativeExecutionParameters :=
  { params with lock := SpinLockUnlocked }

/-- `ArmNce::RunThread(thread)`.  The transfer of control to guest code
(`ReturnToRunCodeByTrampoline` or
`ReturnToRunCodeByExceptionLevelChange`, selected by the post-handler
lookup) is abstracted as the function `transfer`, which returns the
halt reason and the state after the guest run.  Everything else follows
the source line by line: atomically exchange `esr_el1` with zero and
return early when non-zero; otherwise cache the thread-local registers,
install the context (`m_running_thread`, `native_context`, the cached
tpidr values, then `is_running := true` after the release fence), run,
then tear down (`is_running := false`, `native_context := nullptr`,
`m_running_thread := nullptr`) and copy the final `tpidr_el0` back. -/
def RunThread (transfer : ArmNceState → Nat × ArmNceState) (s : ArmNceState) :
    Nat × ArmNceState :=
  let hr := s.m_guest_ctx.esr_el1
  let s1 : ArmNceState := { s with m_guest_ctx := { s.m_guest_ctx with esr_el1 := 0 } }
  if hr ≠ 0 then (hr, s1)
  else
    let tpidr_el0_cache := s1.m_guest_ctx.tpidr_el0
    let tpidrro_el0_cache := s1.m_guest_ctx.tpidrro_el0
    let s2 : ArmNceState :=
      { s1 with
        m_running_thread := true
        thread_params :=
          { s1.thread_params with
            native_context := true
            tpidr_el0 := tpidr_el0_cache
            tpidrro_el0 := tpidrro_el0_cache
            is_running := true } }
    let r := transfer s2
    let final_tpidr_el0 := r.2.thread_params.tpidr_el0
    let s3 : ArmNceState :=
      { r.2 with
        thread_params :=
          { r.2.thread_params with is_running := false, native_context := false }
        m_running_thread := false
        m_guest_ctx := { r.2.m_guest_ctx with tpidr_el0 := final_tpidr_el0 } }
    (r.1, s3)

/-- `ArmNce::SignalInterrupt(thread)`: OR the `BreakLoop` bit into
`esr_el1`, acquire the thread's lock, then either send the
break-from-run-code signal (when `is_running`, leaving the lock held
for the running thread to release) or release the lock.  The boolean
result records whether an OS signal was sent (`tkill`). -/
def SignalInterrupt (s : ArmNceState) : ArmNceState × Bool :=
  let guest1 : GuestContext :=
    { s.m_guest_ctx with esr_el1 := s.m_guest_ctx.esr_el1 ||| HaltReasonBreakLoop }
  let params1 := LockThreadParameters s.thread_params
  if params1.is_running then
    ({ s with m_guest_ctx := guest1, thread_params := params1 }, true)
  else
    ({ s with m_guest_ctx := guest1, thread_params := UnlockThreadParameters params1 }, false)

/-- `ArmNce::StepThread(thread)`: always reports `StepThread` without
executing. -/
def StepThread (_s : ArmNceState) : Nat := HaltReasonStepThread

/-- `Kernel::Svc::ThreadContext` as read and written by
`ArmNce::GetContext` / `ArmNce::SetContext`: registers r0..r28, fp, lr,
sp, pc, pstate, 32 vector registers, fpcr, fpsr, tpidr. -/
structure ThreadContext where
  r : Fin 29 → Nat
  fp : Nat
  lr : Nat
  sp : Nat
  pc : Nat
  pstate : Nat
  v : Fin 32 → Nat
  fpcr : Nat
  fpsr : Nat
  tpidr : Nat

/-- `ArmNce::GetContext(ctx)`: copies the guest register file out into a
`ThreadContext` (r0..r28 from `cpu_registers[0..28]`, fp and lr from
`cpu_registers[29]` and `[30]`). -/
def GetContext (g : GuestContext) : ThreadContext :=
  { r := fun i => g.cpu_registers (Fin.castLE (by omega) i)
    fp := g.cpu_registers 29
    lr := g.cpu_registers 30
    sp := g.sp
    pc := g.pc
    pstate := g.pstate
    v := g.vector_registers
    fpcr := g.fpcr
    fpsr := g.fpsr
    tpidr := g.tpidr_el0 }

/-- `ArmNce::SetContext(ctx)`: writes a `ThreadContext` into the guest
register file (the inverse layout of `GetContext`). -/
def SetContext (g : GuestContext) (ctx : ThreadContext) : GuestContext :=
  { g with
    cpu_registers := fun i =>
      if h : i.val < 29 then ctx.r ⟨i.val, h⟩
      else if i.val = 29 then ctx.fp
      else ctx.lr
    sp := ctx.sp
    pc := ctx.pc
    pstate := ctx.pstate
    vector_registers := ctx.v
    fpcr := ctx.fpcr
    fpsr := ctx.fpsr
    tpidr_el0 := ctx.tpidr }

/-- `ArmNce::GetSvcArguments(args)`: reads `cpu_registers[0..7]`. -/
def GetSvcArguments (g : GuestContext) : Fin 8 → Nat :=
  fun i => g.cpu_registers (Fin.castLE (by omega) i)

/-- `ArmNce::SetSvcArguments(args)`: writes `cpu_registers[0..7]`. -/
def SetSvcArguments (g : GuestContext) (args : Fin 8 → Nat) : GuestContext :=
  { g with
    cpu_registers := fun i =>
      if h : i.val < 8 then args ⟨i.val, h⟩ else g.cpu_registers i }

/-- `ArmNce::GetSvcNumber()`. -/
def GetSvcNumber (g : GuestContext) : Nat := g.svc

/-- `ArmNce::SetTpidrroEl0(value)`. -/
def SetTpidrroEl0 (g : GuestContext) (value : Nat) : GuestContext :=
  { g with tpidrro_el0 := value }

/-- The constant from `arm_nce.cpp`. -/
def CACHE_PAGE_SIZE : Nat := 4096

/-- The cache-line constant from `ArmNce::InvalidateCacheRange`. -/
def CACHE_LINE_SIZE : Nat := 64

/-- `ArmNce::ClearInstructionCache()`: the half-open address range
passed to `__builtin___clear_cache`, as a function of the caller's code
address `ret_addr` (`__builtin_return_address(0)`): two
`CACHE_PAGE_SIZE` pages starting at `ret_addr` rounded down to a page
boundary.  The prefetch hint and the barrier instructions have no
effect on which bytes are flushed. -/
def ClearInstructionCache (ret_addr : Nat) : Nat × Nat :=
  let start := ret_addr - ret_addr % CACHE_PAGE_SIZE
  (start, start + CACHE_PAGE_SIZE * 2)

/-- `ArmNce::InvalidateCacheRange(addr, size)`: the half-open address
range actually flushed.  The source aligns `addr` down and rounds
`size` up to `CACHE_LINE_SIZE`, but uses the aligned range only for
`__builtin_prefetch` hints; the only flush is the call to
`this->ClearInstructionCache()`, whose range depends solely on the
caller's code address `ret_addr`. -/
def InvalidateCacheRange (ret_addr addr size : Nat) : Nat × Nat :=
  let _addr_aligned := addr - addr % CACHE_LINE_SIZE
  let _size_rounded := (size + (CACHE_LINE_SIZE - 1)) / CACHE_LINE_SIZE * CACHE_LINE_SIZE
  ClearInstructionCache ret_addr

/-- Modelled from the spec: the flush region the specification requires
of `InvalidateCacheRange` — the region covering `[addr, addr + size)`
with the address rounded down and the size rounded up to cache-line
boundaries. -/
def specRequiredFlushRange (addr size : Nat) : Nat × Nat :=
  let start := addr - addr % CACHE_LINE_SIZE
  (start, start + (size + (CACHE_LINE_SIZE - 1)) / CACHE_LINE_SIZE * CACHE_LINE_SIZE)

/-- The spec scenario guest context with a pending halt reason, used to
evaluate the restore-then-save round trip. -/
def roundtripGuestCtx : GuestContext :=
  { scenarioGuestCtx with esr_el1 := 6 }

/-- The result of `RestoreGuestContext` followed immediately by
`SaveGuestContext` on the same frame, at the concrete scenario input. -/
def roundtripResult : GuestContext × HostFrame :=
  SaveGuestContext (RestoreGuestContext roundtripGuestCtx scenarioFrame).1
    (RestoreGuestContext roundtripGuestCtx scenarioFrame).2

/-- Concrete thread parameters: unlocked, not running, no context. -/
def threadParams0 : NativeExecutionParameters :=
  { native_context := false
    tpidr_el0 := 0
    tpidrro_el0 := 0
    is_running := false
    lock := SpinLockUnlocked
    magic := 0 }

/-- Concrete driver state with a pending halt reason. -/
def haltedState : ArmNceState :=
  { m_guest_ctx := roundtripGuestCtx
    m_running_thread := false
    thread_params := threadParams0 }

/-- A concrete transfer-control oracle that halts immediately. -/
def idleTransfer : ArmNceState → Nat × ArmNceState := fun s => (0, s)

/- ------------------------------------------------------------------ -/
/- Theorems.                                                          -/
/- ------------------------------------------------------------------ -/

/-- Fast path of `RunThread`: a pending halt reason is exchanged out
and returned with no other state change. -/
theorem runThread_fast_eq (transfer : ArmNceState → Nat × ArmNceState) (s : ArmNceState)
    (h : s.m_guest_ctx.esr_el1 ≠ 0) :
    RunThread transfer s =
      (s.m_guest_ctx.esr_el1,
       { s with m_guest_ctx := { s.m_guest_ctx with esr_el1 := 0 } }) := by
  simp [RunThread, h]

/-- The halt reason returned by the fast path of `RunThread`. -/
theorem runThread_fast_hr (transfer : ArmNceState → Nat × ArmNceState) (s : ArmNceState)
    (h : s.m_guest_ctx.esr_el1 ≠ 0) :
    (RunThread transfer s).1 = s.m_guest_ctx.esr_el1 := by
  rw [runThread_fast_eq transfer s h]

/-- `SignalInterrupt` ORs the BreakLoop bit into `esr_el1` on both
branches. -/
theorem signalInterrupt_esr (s : ArmNceState) :
    (SignalInterrupt s).1.m_guest_ctx.esr_el1
      = s.m_guest_ctx.esr_el1 ||| HaltReasonBreakLoop := by
  by_cases hr : (LockThreadParameters s.thread_params).is_running <;>
    simp [SignalInterrupt, hr]

/-- C1: the claim says `RestoreGuestContext` writes guest `pc` into the
frame's PC slot and guest `sp` into the frame's SP slot; the code does
the opposite (`CTX_PC = guest_ctx->sp; CTX_SP = guest_ctx->pc`).  At
the spec scenario (pc=0x1000, sp=0x2000, all GPRs zero) the produced
frame has PC=0x2000 and SP=0x1000, while the GPR slots are zero and the
host callee-saved vector registers and stack pointer from the prior
frame are preserved into `host_ctx` as claimed. -/
theorem restoreGuestContext_scenario_swaps_pc_sp :
    (RestoreGuestContext scenarioGuestCtx scenarioFrame).2.pc = 0x2000 ∧
    (RestoreGuestContext scenarioGuestCtx scenarioFrame).2.sp = 0x1000 ∧
    ¬ (RestoreGuestContext scenarioGuestCtx scenarioFrame).2.pc = 0x1000 ∧
    (∀ i : Fin 31, (RestoreGuestContext scenarioGuestCtx scenarioFrame).2.x i = 0) ∧
    (RestoreGuestContext scenarioGuestCtx scenarioFrame).1.host_ctx.host_sp
      = scenarioFrame.sp ∧
    (∀ i : Fin 8,
      (RestoreGuestContext scenarioGuestCtx scenarioFrame).1.host_ctx.host_saved_vregs i
        = scenarioFrame.q ⟨8 + i.val, by have := i.isLt; omega⟩) := by
  decide

/-- C2: the claim says restore-then-save reproduces the original
`GuestContext` exactly (except the halt reason, consumed into the
frame's X0 slot and left zero).  At the concrete scenario input every
field round-trips as claimed — general-purpose registers, vector
registers, pstate, fpcr, fpsr, halt reason consumed into X0 and left
zero — except `pc` and `sp`, which come back exchanged (pc=0x2000,
sp=0x1000 instead of pc=0x1000, sp=0x2000) because of the swapped
assignments in `RestoreGuestContext`. -/
theorem restore_then_save_swaps_pc_sp :
    roundtripGuestCtx.pc = 0x1000 ∧
    roundtripGuestCtx.sp = 0x2000 ∧
    roundtripResult.1.pc = 0x2000 ∧
    roundtripResult.1.sp = 0x1000 ∧
    (∀ i : Fin 31, roundtripResult.1.cpu_registers i = roundtripGuestCtx.cpu_registers i) ∧
    (∀ i : Fin 32,
      roundtripResult.1.vector_registers i = roundtripGuestCtx.vector_registers i) ∧
    roundtripResult.1.pstate = roundtripGuestCtx.pstate ∧
    roundtripResult.1.fpcr = roundtripGuestCtx.fpcr ∧
    roundtripResult.1.fpsr = roundtripGuestCtx.fpsr ∧
    roundtripResult.1.esr_el1 = 0 ∧
    roundtripResult.2.x 0 = roundtripGuestCtx.esr_el1 := by
  decide

/-- C3: an unresolvable fault with frame PC different from the faulting
address (a data abort) advances the frame PC by exactly 4, reports
resume-guest (`true`), and leaves the guest context — in particular the
halt-reason accumulator — and the thread parameters unchanged. -/
theorem handleFailedGuestFault_data_abort (guest_ctx : GuestContext) (fault_addr : Nat)
    (frame : HostFrame) (thread_params : NativeExecutionParameters)
    (h : frame.pc ≠ fault_addr) :
    HandleFailedGuestFault guest_ctx fault_addr frame thread_params =
      (guest_ctx, { frame with pc := (frame.pc + 4) % 2 ^ 64 }, thread_params, true) := by
  simp [HandleFailedGuestFault, h]

/-- Witness for C3 at a concrete data abort. -/
theorem handleFailedGuestFault_data_abort_witness :
    scenarioFrame.pc ≠ 0xCCCC ∧
    HandleFailedGuestFault scenarioGuestCtx 0xCCCC scenarioFrame threadParams0 =
      (scenarioGuestCtx, { scenarioFrame with pc := (scenarioFrame.pc + 4) % 2 ^ 64 },
       threadParams0, true) :=
  ⟨by decide,
   handleFailedGuestFault_data_abort scenarioGuestCtx 0xCCCC scenarioFrame threadParams0
     (by decide)⟩

/-- C4: an unresolvable fault with frame PC equal to the faulting
address (a prefetch abort) ORs the PrefetchAbort bit into the
halt-reason accumulator, stores the locked state into the owning
thread's lock word, invokes `SaveGuestContext` on the frame (so the
frame's X0 slot carries the halt reason with the PrefetchAbort bit
set), and reports return-to-host (`false`). -/
theorem handleFailedGuestFault_prefetch_abort (guest_ctx : GuestContext) (fault_addr : Nat)
    (frame : HostFrame) (thread_params : NativeExecutionParameters)
    (h : frame.pc = fault_addr) :
    (HandleFailedGuestFault guest_ctx fault_addr frame thread_params).2.2.2 = false ∧
    (HandleFailedGuestFault guest_ctx fault_addr frame thread_params).2.2.1
      = { thread_params with lock := SpinLockLocked } ∧
    ((HandleFailedGuestFault guest_ctx fault_addr frame thread_params).1,
     (HandleFailedGuestFault guest_ctx fault_addr frame thread_params).2.1)
      = SaveGuestContext
          { guest_ctx with esr_el1 := guest_ctx.esr_el1 ||| HaltReasonPrefetchAbort } frame ∧
    Nat.testBit
      ((HandleFailedGuestFault guest_ctx fault_addr frame thread_params).2.1.x 0) 5 = true := by
  have hx : HandleFailedGuestFault guest_ctx fault_addr frame thread_params =
      ((SaveGuestContext
          { guest_ctx with esr_el1 := guest_ctx.esr_el1 ||| HaltReasonPrefetchAbort } frame).1,
       (SaveGuestContext
          { guest_ctx with esr_el1 := guest_ctx.esr_el1 ||| HaltReasonPrefetchAbort } frame).2,
       { thread_params with lock := SpinLockLocked }, false) := by
    simp [HandleFailedGuestFault, h]
  rw [hx]
  refine ⟨rfl, rfl, rfl, ?_⟩
  have hx0 : (SaveGuestContext
      { guest_ctx with esr_el1 := guest_ctx.esr_el1 ||| HaltReasonPrefetchAbort } frame).2.x 0
      = guest_ctx.esr_el1 ||| HaltReasonPrefetchAbort := rfl
  rw [hx0, Nat.testBit_lor]
  have hb : Nat.testBit HaltReasonPrefetchAbort 5 = true := by decide
  rw [hb, Bool.or_true]

/-- Witness for C4 at a concrete prefetch abort. -/
theorem handleFailedGuestFault_prefetch_abort_witness :
    scenarioFrame.pc = 0xBBBB ∧
    ((HandleFailedGuestFault scenarioGuestCtx 0xBBBB scenarioFrame threadParams0).2.2.2
        = false ∧
     (HandleFailedGuestFault scenarioGuestCtx 0xBBBB scenarioFrame threadParams0).2.2.1
        = { threadParams0 with lock := SpinLockLocked } ∧
     ((HandleFailedGuestFault scenarioGuestCtx 0xBBBB scenarioFrame threadParams0).1,
      (HandleFailedGuestFault scenarioGuestCtx 0xBBBB scenarioFrame threadParams0).2.1)
        = SaveGuestContext
            { scenarioGuestCtx with
              esr_el1 := scenarioGuestCtx.esr_el1 ||| HaltReasonPrefetchAbort }
            scenarioFrame ∧
     Nat.testBit
       ((HandleFailedGuestFault scenarioGuestCtx 0xBBBB scenarioFrame threadParams0).2.1.x 0)
       5 = true) :=
  ⟨by decide,
   handleFailedGuestFault_prefetch_abort scenarioGuestCtx 0xBBBB scenarioFrame threadParams0
     (by decide)⟩

/-- C5: when the halt-reason bitmask is already non-zero, `RunThread`
returns exactly that value, leaves the bitmask zero, and performs no
context install: the thread parameters (`is_running`,
`native_context`, the tpidr values, the lock) and the
`m_running_thread` back-reference are untouched. -/
theorem runThread_already_halted (transfer : ArmNceState → Nat × ArmNceState)
    (s : ArmNceState) (h : s.m_guest_ctx.esr_el1 ≠ 0) :
    (RunThread transfer s).1 = s.m_guest_ctx.esr_el1 ∧
    (RunThread transfer s).2.m_guest_ctx.esr_el1 = 0 ∧
    (RunThread transfer s).2.thread_params = s.thread_params ∧
    (RunThread transfer s).2.m_running_thread = s.m_running_thread := by
  rw [runThread_fast_eq transfer s h]
  exact ⟨rfl, rfl, rfl, rfl⟩

/-- Witness for C5: a concrete state with a pending halt reason. -/
theorem runThread_already_halted_witness :
    haltedState.m_guest_ctx.esr_el1 ≠ 0 ∧
    ((RunThread idleTransfer haltedState).1 = haltedState.m_guest_ctx.esr_el1 ∧
     (RunThread idleTransfer haltedState).2.m_guest_ctx.esr_el1 = 0 ∧
     (RunThread idleTransfer haltedState).2.thread_params = haltedState.thread_params ∧
     (RunThread idleTransfer haltedState).2.m_running_thread
        = haltedState.m_running_thread) :=
  ⟨by decide, runThread_already_halted idleTransfer haltedState (by decide)⟩

/-- C6: `SignalInterrupt` on a thread whose parameters show
`is_running = false` leaves the lock word Unlocked and sends no OS
signal. -/
theorem signalInterrupt_not_running_unlocks (s : ArmNceState)
    (h : s.thread_params.is_running = false) :
    (SignalInterrupt s).1.thread_params.lock = SpinLockUnlocked ∧
    (SignalInterrupt s).2 = false := by
  have h1 : (LockThreadParameters s.thread_params).is_running = false := h
  simp [SignalInterrupt, h1, UnlockThreadParameters]

/-- Witness for C6: a concrete not-running state. -/
theorem signalInterrupt_not_running_unlocks_witness :
    haltedState.thread_params.is_running = false ∧
    ((SignalInterrupt haltedState).1.thread_params.lock = SpinLockUnlocked ∧
     (SignalInterrupt haltedState).2 = false) :=
  ⟨by decide, signalInterrupt_not_running_unlocks haltedState (by decide)⟩

/-- C7: `SignalInterrupt` ORs the BreakLoop bit (bit 2 of the
halt-reason bitmask) into the accumulator before any lock interaction,
so a `RunThread` that starts after `SignalInterrupt` completes returns
a halt reason whose bitmask includes BreakLoop, for every transfer
oracle and every starting state. -/
theorem signalInterrupt_breakloop_observed (transfer : ArmNceState → Nat × ArmNceState)
    (s : ArmNceState) :
    Nat.testBit (RunThread transfer (SignalInterrupt s).1).1 2 = true := by
  have hb : Nat.testBit (s.m_guest_ctx.esr_el1 ||| HaltReasonBreakLoop) 2 = true := by
    rw [Nat.testBit_lor]
    have h4 : Nat.testBit HaltReasonBreakLoop 2 = true := by decide
    rw [h4, Bool.or_true]
  have h2 : (SignalInterrupt s).1.m_guest_ctx.esr_el1 ≠ 0 := by
    rw [signalInterrupt_esr s]
    intro h0
    rw [h0] at hb
    exact absurd hb (by decide)
  rw [runThread_fast_hr transfer (SignalInterrupt s).1 h2, signalInterrupt_esr s]
  exact hb

/-- C8: `GetContext` after `SetContext` returns a bit-identical
`ThreadContext`: all 29 numbered registers, fp, lr, sp, pc, pstate, the
vector registers, fpcr, fpsr and tpidr round-trip exactly. -/
theorem getContext_setContext_roundtrip (g : GuestContext) (ctx : ThreadContext) :
    GetContext (SetContext g ctx) = ctx := by
  cases ctx with
  | mk r fp lr sp pc pstate v fpcr fpsr tpidr =>
    simp only [GetContext, SetContext]
    congr 1
    funext i
    have hi := i.isLt
    simp [Fin.castLE, hi]

/-- C10: `SetSvcArguments` writes arguments into guest registers 0..7
only — registers 8..30 and every other guest-context field are
unchanged — and a subsequent `GetSvcArguments` returns the same 8
values. -/
theorem setSvcArguments_frame_effect (g : GuestContext) (args : Fin 8 → Nat) :
    (∀ i : Fin 31, 8 ≤ i.val →
      (SetSvcArguments g args).cpu_registers i = g.cpu_registers i) ∧
    (SetSvcArguments g args).vector_registers = g.vector_registers ∧
    (SetSvcArguments g args).sp = g.sp ∧
    (SetSvcArguments g args).pc = g.pc ∧
    (SetSvcArguments g args).pstate = g.pstate ∧
    (SetSvcArguments g args).fpcr = g.fpcr ∧
    (SetSvcArguments g args).fpsr = g.fpsr ∧
    (SetSvcArguments g args).tpidr_el0 = g.tpidr_el0 ∧
    (SetSvcArguments g args).tpidrro_el0 = g.tpidrro_el0 ∧
    GetSvcArguments (SetSvcArguments g args) = args := by
  refine ⟨?_, rfl, rfl, rfl, rfl, rfl, rfl, rfl, rfl, ?_⟩
  · intro i hi
    simp only [SetSvcArguments]
    rw [dif_neg (by omega)]
  · funext i
    have hi := i.isLt
    simp [GetSvcArguments, SetSvcArguments, Fin.castLE, hi]

/-- C9: the claim says `InvalidateCacheRange(addr, size)` flushes the
cache for exactly the cache-line-aligned region covering
`[addr, addr+size)`.  The code only prefetches that region; the actual
flush (`ClearInstructionCache`) covers two pages around the caller's
own code address, independent of `addr` and `size`: with the caller at
0x500000 and addr=0x100000, size=64, the flushed range is
[0x500000, 0x502000), which does not even contain `addr`, while the
required region is [0x100000, 0x100040). -/
theorem invalidateCacheRange_ignores_requested_range :
    InvalidateCacheRange 0x500000 0x100000 64 = (0x500000, 0x502000) ∧
    specRequiredFlushRange 0x100000 64 = (0x100000, 0x100040) ∧
    ¬ ((InvalidateCacheRange 0x500000 0x100000 64).1 ≤ 0x100000 ∧
       0x100000 < (InvalidateCacheRange 0x500000 0x100000 64).2) := by
  decide
